import Mathlib

/-!
Verification of the Autonomous 4-Axis Control Logic repository.

The development shallowly embeds the two Python modules:

* `edge_control_system.py` — thresholds, the five-actuator state, the four
  per-category hysteresis rules of `main_control_loop`, the `log_action`
  line format, and the interrupt/fault/cleanup structure of the loop.
* `cloud_sync_logic.py` — `parse_log_entry` and `read_local_buffer_and_sync`.

Sensor readings are modelled as rationals (the Python floats involved are
small decimals and all comparisons are against exactly representable
thresholds).  Strings are modelled as `List Char`; Python `str.split`,
`str.strip` and slicing are embedded below with their Python semantics
(full split on every non-overlapping occurrence, left to right).
-/

namespace EdgeControl

/-- `TARGET_MOISTURE_LOW = 40.0` (edge_control_system.py line 28). -/
def TARGET_MOISTURE_LOW : ℚ := 40

/-- `TARGET_MOISTURE_HIGH = 65.0` (line 29). -/
def TARGET_MOISTURE_HIGH : ℚ := 65

/-- `TARGET_TEMP_HIGH = 32.0` (line 32). -/
def TARGET_TEMP_HIGH : ℚ := 32

/-- `TARGET_TEMP_OPTIMAL = 28.0` (line 33). -/
def TARGET_TEMP_OPTIMAL : ℚ := 28

/-- `TARGET_HUMIDITY_HIGH = 80.0` (line 36). -/
def TARGET_HUMIDITY_HIGH : ℚ := 80

/-- `TARGET_HUMIDITY_LOW = 60.0` (line 37). -/
def TARGET_HUMIDITY_LOW : ℚ := 60

/-- `TARGET_LIGHT_HIGH = 30000.0` (line 40). -/
def TARGET_LIGHT_HIGH : ℚ := 30000

/-- `TARGET_LIGHT_LOW = 15000.0` (line 41). -/
def TARGET_LIGHT_LOW : ℚ := 15000

/-- The five binary actuators of `main_control_loop`
(`pump`, `fan`, `mister`, `led_light`, `shade_net`, lines 112–116);
`true` models `is_active`. -/
structure ActuatorState where
  pump : Bool
  fan : Bool
  mister : Bool
  led_light : Bool
  shade_net : Bool
deriving DecidableEq

/-- State after `pump.off(); fan.off(); mister.off(); led_light.off();
shade_net.off()` (lines 119–123, and again in the `finally` block). -/
def allOff : ActuatorState :=
  { pump := false, fan := false, mister := false,
    led_light := false, shade_net := false }

/-- One reading per metric per cycle (lines 136–139). -/
structure SensorFrame where
  moisture : ℚ
  temp : ℚ
  humidity : ℚ
  light : ℚ

/-- Which branch of the soil-moisture block fired (lines 142–149):
`pumpOn` = "Pump ON (Irrigation START)", `pumpOff` = "Pump OFF
(Irrigation STOP)", `noChange b` = "Soil_Moisture: No Change (ON/OFF)"
with `b` the pump state shown. -/
inductive MoistureResult
  | pumpOn
  | pumpOff
  | noChange (pump : Bool)
deriving DecidableEq

/-- Soil-moisture control block of `main_control_loop` (lines 142–149). -/
def moisture_control (current_moisture : ℚ) (s : ActuatorState) :
    ActuatorState × MoistureResult :=
  if current_moisture < TARGET_MOISTURE_LOW ∧ s.pump = false then
    ({ s with pump := true }, .pumpOn)
  else if current_moisture > TARGET_MOISTURE_HIGH ∧ s.pump = true then
    ({ s with pump := false }, .pumpOff)
  else
    (s, .noChange s.pump)

/-- Which branch of the temperature block fired (lines 153–160). -/
inductive TempResult
  | fanOn
  | fanOff
  | noChange (fan : Bool)
deriving DecidableEq

/-- Temperature control block of `main_control_loop` (lines 153–160). -/
def temperature_control (current_temp : ℚ) (s : ActuatorState) :
    ActuatorState × TempResult :=
  if current_temp > TARGET_TEMP_HIGH ∧ s.fan = false then
    ({ s with fan := true }, .fanOn)
  else if current_temp < TARGET_TEMP_OPTIMAL ∧ s.fan = true then
    ({ s with fan := false }, .fanOff)
  else
    (s, .noChange s.fan)

/-- Which branch of the humidity block fired (lines 165–180):
`misterOn` = "Mister ON (Humidify START)", `misterOff` = "Mister OFF
(Humidify STOP)", `fanOnDehumidify` = "Fan ON (Dehumidify START)",
`noChange b` shows the mister state. -/
inductive HumidityResult
  | misterOn
  | misterOff
  | fanOnDehumidify
  | noChange (mister : Bool)
deriving DecidableEq

/-- Humidity control block of `main_control_loop` (lines 165–180). -/
def humidity_control (current_humidity : ℚ) (s : ActuatorState) :
    ActuatorState × HumidityResult :=
  if current_humidity < TARGET_HUMIDITY_LOW ∧ s.mister = false then
    ({ s with mister := true }, .misterOn)
  else if current_humidity > TARGET_HUMIDITY_HIGH ∧ s.mister = true then
    ({ s with mister := false }, .misterOff)
  else if current_humidity > TARGET_HUMIDITY_HIGH ∧ s.fan = false then
    ({ s with fan := true }, .fanOnDehumidify)
  else
    (s, .noChange s.mister)

/-- Which branch of the light block fired (lines 186–209):
`ledsOn` = "LEDs ON (Low Light Supplement)", `ledsOff` = "LEDs OFF
(Light Optimal)", `shadeOn` = "Shade Net ON (High Light Protection)",
`shadeOff` = "Shade Net OFF (Light Reduced)", `noChange led shade` =
"Light: No Change (LED:…, Shade:…)". -/
inductive LightResult
  | ledsOn
  | ledsOff
  | shadeOn
  | shadeOff
  | noChange (led shade : Bool)
deriving DecidableEq

/-- Light-intensity control block of `main_control_loop` (lines 186–209),
with the 500-lux LED buffer and the 1000-lux shade buffer. -/
def light_control (current_light : ℚ) (s : ActuatorState) :
    ActuatorState × LightResult :=
  if current_light < TARGET_LIGHT_LOW ∧ s.led_light = false then
    ({ s with led_light := true }, .ledsOn)
  else if current_light > TARGET_LIGHT_LOW + 500 ∧ s.led_light = true then
    ({ s with led_light := false }, .ledsOff)
  else if current_light > TARGET_LIGHT_HIGH ∧ s.shade_net = false then
    ({ s with shade_net := true }, .shadeOn)
  else if current_light < TARGET_LIGHT_HIGH - 1000 ∧ s.shade_net = true then
    ({ s with shade_net := false }, .shadeOff)
  else
    (s, .noChange s.led_light s.shade_net)

/-- One full cycle of the `while True` body: the four category blocks in
their fixed order moisture → temperature → humidity → light
(lines 141–209); only the resulting actuator state is kept. -/
def control_cycle (f : SensorFrame) (s : ActuatorState) : ActuatorState :=
  let s1 := (moisture_control f.moisture s).1
  let s2 := (temperature_control f.temp s1).1
  let s3 := (humidity_control f.humidity s2).1
  (light_control f.light s3).1

/-- A possibly partial cycle: the first `k` of the four category blocks
(used to model an exception striking between two blocks of a cycle). -/
def partial_cycle (k : ℕ) (f : SensorFrame) (s : ActuatorState) : ActuatorState :=
  let s1 := if 1 ≤ k then (moisture_control f.moisture s).1 else s
  let s2 := if 2 ≤ k then (temperature_control f.temp s1).1 else s1
  let s3 := if 3 ≤ k then (humidity_control f.humidity s2).1 else s2
  if 4 ≤ k then (light_control f.light s3).1 else s3

/-- Why `main_control_loop`'s `while True` stopped: `except KeyboardInterrupt`
(line 215) or `except Exception as e` (line 218). -/
inductive ExitReason
  | keyboardInterrupt
  | unexpectedFault (msg : List Char)

/-- How `main_control_loop` terminates towards its caller.
`stoppedByUser` and `errorReported` model the two `except` handlers, which
print and fall through to `finally` and a normal return; `propagated`
models an exception escaping `main_control_loop` to its caller — the
function body never produces it, since `except Exception` swallows the
fault (lines 218–219). -/
inductive LoopOutcome
  | stoppedByUser
  | errorReported (msg : List Char)
  | propagated (msg : List Char)
deriving DecidableEq

/-- The `finally` block (lines 222–228): `pump.off(); fan.off();
mister.off(); led_light.off(); shade_net.off()`. -/
def cleanup (s : ActuatorState) : ActuatorState :=
  { s with pump := false, fan := false, mister := false,
           led_light := false, shade_net := false }

/-- `main_control_loop` (lines 108–229), modelled as: actuators start OFF
(lines 119–123), some number of complete cycles run, optionally a partial
cycle runs up to the point where the exception strikes, then the matching
`except` handler and the `finally` cleanup run.  Returns the actuator
state at return time together with the termination outcome. -/
def main_control_loop (frames : List SensorFrame)
    (partialExit : Option (SensorFrame × ℕ)) (exitReason : ExitReason) :
    ActuatorState × LoopOutcome :=
  let s0 := allOff
  let s1 := frames.foldl (fun s f => control_cycle f s) s0
  let s2 := match partialExit with
    | none => s1
    | some (f, k) => partial_cycle k f s1
  let outcome := match exitReason with
    | .keyboardInterrupt => LoopOutcome.stoppedByUser
    | .unexpectedFault m => LoopOutcome.errorReported m
  (cleanup s2, outcome)

/-- `log_action`'s line format (edge_control_system.py line 94):
`f"[{timestamp}] {sensor_data}. Action: {action}"`; the timestamp argument
models `datetime.datetime.now().strftime("%Y-%m-%d %H:%M:%S")`. -/
def log_entry_line (timestamp sensor_data action : List Char) : List Char :=
  ('[' :: timestamp) ++ (']' :: ' ' :: sensor_data) ++ (". Action: ").toList ++ action

end EdgeControl

namespace CloudSync

/-! Embedding of `cloud_sync_logic.py`.  Python string primitives are
modelled on `List Char`: `pySplit` is `str.split(sep)` (split on every
non-overlapping occurrence, left to right), `pyStrip` is `str.strip()`,
slicing `line[a:b]` is `(line.drop a).take (b - a)`. -/

/-- Python `str.isspace` characters relevant to `str.strip()` (ASCII). -/
def isSpaceChar (c : Char) : Bool :=
  c == ' ' || c == '\t' || c == '\n' || c == '\r' || c == '\x0b' || c == '\x0c'

/-- Python `str.strip()`: drop leading and trailing whitespace. -/
def pyStrip (xs : List Char) : List Char :=
  ((xs.dropWhile isSpaceChar).reverse.dropWhile isSpaceChar).reverse

/-- Worker for `pySplit` with a structurally nonempty separator
`s :: ss`: at each position, either the separator matches there and a new
field starts after it, or the current character is prepended to the first
field of the split of the tail.  The fuel argument only forces structural
recursion: every step consumes at least one character together with one
unit of fuel, so any fuel ≥ the input length gives the fuel-free
behaviour and the out-of-fuel branch is unreachable. -/
def splitOnAux (s : Char) (ss : List Char) : ℕ → List Char → List (List Char)
  | _, [] => [[]]
  | 0, rest => [rest]
  | fuel + 1, c :: rest =>
    if s = c ∧ List.isPrefixOf ss rest then
      [] :: splitOnAux s ss fuel (rest.drop ss.length)
    else
      match splitOnAux s ss fuel rest with
      | [] => [[c]]
      | h :: t => (c :: h) :: t

/-- Python `xs.split(sep)` for a nonempty separator (Python raises
`ValueError` on an empty separator; the code only ever splits on
`". Action: "`, `": "` and `"("`). -/
def pySplit (sep xs : List Char) : List (List Char) :=
  match sep with
  | [] => [xs]
  | s :: ss => splitOnAux s ss xs.length xs

/-- Python's substring test `needle in hay` (the `in` of line 34):
`needle` occurs at some position of `hay`. -/
def containsSub (needle : List Char) : List Char → Bool
  | [] => List.isPrefixOf needle []
  | c :: rest => List.isPrefixOf needle (c :: rest) || containsSub needle rest

/-- `CRITICAL_ACTIONS` (cloud_sync_logic.py line 9). -/
def CRITICAL_ACTIONS : List (List Char) :=
  [("Pump ON").toList, ("Fan ON").toList, ("Mister ON").toList,
   ("Shade Net ON").toList, ("LEDs ON").toList]

/-- The separator `". Action: "` of line 21. -/
def SEP_ACTION : List Char := (". Action: ").toList

/-- The separator `": "` of line 25. -/
def SEP_COLON : List Char := (": ").toList

/-- The dictionary built by `parse_log_entry` (lines 37–45); field order is
the dict's insertion order. -/
structure LogRecord where
  Timestamp : List Char
  Sensor_Type : List Char
  Sensor_Reading : List Char
  Actuator_Action : List Char
  Is_Critical : List Char
  Cloud_Sync_ID : List Char
deriving DecidableEq

/-- `parse_log_entry` (lines 11–48).  `cloud_sync_id` models the freshly
generated `f"CS-{random.randint(1000, 9999)}"`, which is not derived from
the input.  A Python `IndexError` on `sensor_data_raw[1]` or
`data_parts[1]` is caught by the bare `except` and yields `None`; every
other operation (slicing, splitting, stripping) is total. -/
def parse_log_entry (cloud_sync_id : List Char) (line : List Char) :
    Option LogRecord :=
  let timestamp := (line.drop 1).take 19
  let data_parts := pySplit SEP_ACTION (line.drop 23)
  let sensor_data_raw := pySplit SEP_COLON (data_parts.headD [])
  match sensor_data_raw[1]? with
  | none => none
  | some v =>
    let sensor_type := sensor_data_raw.headD []
    let sensor_value_unit := pyStrip v
    match data_parts[1]? with
    | none => none
    | some ap =>
      let action_raw := pyStrip ap
      let action_name := pyStrip ((pySplit ['('] action_raw).headD [])
      let is_critical := CRITICAL_ACTIONS.any fun ca => containsSub ca action_name
      some { Timestamp := timestamp, Sensor_Type := sensor_type,
             Sensor_Reading := sensor_value_unit, Actuator_Action := action_name,
             Is_Critical := if is_critical then ("Yes").toList else ("No").toList,
             Cloud_Sync_ID := cloud_sync_id }

/-- The read-and-parse loop of `read_local_buffer_and_sync` (lines 62–66):
each line is stripped, parsed, and appended iff a record came back.
`ids` supplies the random `Cloud_Sync_ID` for the line at each index. -/
def processLines (ids : ℕ → List Char) : List (List Char) → ℕ → List LogRecord
  | [], _ => []
  | l :: ls, k =>
    match parse_log_entry (ids k) (pyStrip l) with
    | some r => r :: processLines ids ls (k + 1)
    | none => processLines ids ls (k + 1)

/-- The files `read_local_buffer_and_sync` can see: the source log
`ActuatorLog_Local.txt` as a list of lines (or absent), and the export
`CloudSync_Ready.csv` as rows of cells (or absent). -/
structure FileSystem where
  logFile : Option (List (List Char))
  csvFile : Option (List (List (List Char)))
deriving DecidableEq

/-- Which exit of `read_local_buffer_and_sync` was taken: the missing-file
return (line 56), the no-data return (line 72), or a completed sync of
`n` records. -/
inductive SyncStatus
  | logMissing
  | noData
  | synced (n : ℕ)
deriving DecidableEq

/-- `processed_data[0].keys()` (line 84): the insertion-ordered keys of the
dict built by `parse_log_entry`, identical for every record. -/
def fieldnames : List (List Char) :=
  [("Timestamp").toList, ("Sensor_Type").toList, ("Sensor_Reading").toList,
   ("Actuator_Action").toList, ("Is_Critical").toList, ("Cloud_Sync_ID").toList]

/-- One CSV data row written by `csv.DictWriter.writerows` (line 89): the
record's values in `fieldnames` order. -/
def recordRow (r : LogRecord) : List (List Char) :=
  [r.Timestamp, r.Sensor_Type, r.Sensor_Reading, r.Actuator_Action,
   r.Is_Critical, r.Cloud_Sync_ID]

/-- `read_local_buffer_and_sync` (lines 50–99): abort if the log is
missing; parse all lines; return early if nothing parsed; otherwise write
`CloudSync_Ready.csv` (header then one row per record, input order).  The
cleanup of STEP 4 is a no-op — `os.remove(LOCAL_LOG_FILE)` is commented
out (line 98) — so the log file is never touched. -/
def read_local_buffer_and_sync (ids : ℕ → List Char) (fs : FileSystem) :
    FileSystem × SyncStatus :=
  match fs.logFile with
  | none => (fs, .logMissing)
  | some fileLines =>
    let processed_data := processLines ids fileLines 0
    if processed_data.isEmpty then (fs, .noData)
    else
      ({ fs with csvFile := some (fieldnames :: processed_data.map recordRow) },
       .synced processed_data.length)

/-- `containsSub` decides substring occurrence. -/
theorem containsSub_iff (needle : List Char) (hay : List Char) :
    containsSub needle hay = true ↔ needle <:+: hay := by
  induction hay with
  | nil =>
    simp [containsSub, List.isPrefixOf_iff_prefix]
  | cons c rest ih =>
    simp [containsSub, List.isPrefixOf_iff_prefix, ih, List.infix_cons_iff]

/-- With enough fuel, splitting a list in which the (nonempty) separator
does not occur yields the single field equal to the whole list. -/
theorem splitOnAux_of_not_infix (s : Char) (ss : List Char) :
    ∀ (xs : List Char) (fuel : ℕ), xs.length ≤ fuel →
      ¬ (s :: ss) <:+: xs → splitOnAux s ss fuel xs = [xs] := by
  intro xs
  induction xs with
  | nil =>
    intro fuel _ _
    cases fuel <;> rfl
  | cons c rest ih =>
    intro fuel hlen hinf
    cases fuel with
    | zero => simp at hlen
    | succ n =>
      have hcond : ¬ (s = c ∧ List.isPrefixOf ss rest = true) := by
        rintro ⟨rfl, hp⟩
        exact hinf (List.IsPrefix.isInfix
          (List.cons_prefix_cons.2 ⟨rfl, List.isPrefixOf_iff_prefix.1 hp⟩))
      have hrest : ¬ (s :: ss) <:+: rest := fun h =>
        hinf (List.infix_cons_iff.2 (Or.inr h))
      have hlen' : rest.length ≤ n := by simp at hlen; omega
      simp only [splitOnAux, if_neg hcond, ih n hlen' hrest]

/-- Splitting on a nonempty separator that does not occur in the input
returns the whole input as the single field. -/
theorem pySplit_of_not_infix (sep xs : List Char) (hne : sep ≠ [])
    (h : ¬ sep <:+: xs) : pySplit sep xs = [xs] := by
  cases sep with
  | nil => exact absurd rfl hne
  | cons s ss => exact splitOnAux_of_not_infix s ss xs xs.length le_rfl h

/-- `str.strip()` returns a contiguous piece of its input. -/
theorem pyStrip_contig (l : List Char) : pyStrip l <:+: l := by
  have h1 : l.dropWhile isSpaceChar <:+ l := List.dropWhile_suffix _
  have h2 : (l.dropWhile isSpaceChar).reverse.dropWhile isSpaceChar
      <:+ (l.dropWhile isSpaceChar).reverse := List.dropWhile_suffix _
  have h3 : pyStrip l <+: l.dropWhile isSpaceChar := by
    have := List.reverse_prefix.2 h2
    simpa [pyStrip] using this
  exact h3.isInfix.trans h1.isInfix

/-- A line in which `". Action: "` does not occur parses to `None`:
` data_parts` is a single field, so `data_parts[1]` raises `IndexError`,
which the bare `except` turns into `None`. -/
theorem parse_log_entry_eq_none (cloud_sync_id line : List Char)
    (h : ¬ SEP_ACTION <:+: line) : parse_log_entry cloud_sync_id line = none := by
  have h23 : ¬ SEP_ACTION <:+: line.drop 23 := fun hh =>
    h (hh.trans (List.drop_suffix 23 line).isInfix)
  simp only [parse_log_entry, pySplit_of_not_infix SEP_ACTION _ (by decide) h23]
  cases hv : (pySplit SEP_COLON ([line.drop 23].headD []))[1]? <;> simp [hv]

/-- If no line of the buffer parses, the processed list is empty. -/
theorem processLines_eq_nil (ids : ℕ → List Char) :
    ∀ (ls : List (List Char)) (k : ℕ),
      (∀ l ∈ ls, ∀ id, parse_log_entry id (pyStrip l) = none) →
      processLines ids ls k = [] := by
  intro ls
  induction ls with
  | nil => intro k _; rfl
  | cons l rest ih =>
    intro k h
    have hl : parse_log_entry (ids k) (pyStrip l) = none :=
      h l (List.mem_cons_self l rest) (ids k)
    simp only [processLines, hl]
    exact ih (k + 1) fun x hx => h x (List.mem_cons_of_mem l hx)

end CloudSync

open EdgeControl CloudSync

/-- C4: in any control cycle, if the moisture reading is below
`TARGET_MOISTURE_LOW` (40.0) and the pump is OFF, the moisture category
turns the pump ON and changes no other actuator; if the reading is above
`TARGET_MOISTURE_HIGH` (65.0) and the pump is ON, the pump turns OFF; for
every reading in the closed interval [40.0, 65.0] the pump's state is
unchanged by the moisture category. -/
theorem moisture_pump_spec (m : ℚ) (s : ActuatorState) :
    (m < TARGET_MOISTURE_LOW → s.pump = false →
      moisture_control m s = ({ s with pump := true }, .pumpOn)) ∧
    (m > TARGET_MOISTURE_HIGH → s.pump = true →
      (moisture_control m s).1 = { s with pump := false }) ∧
    (TARGET_MOISTURE_LOW ≤ m → m ≤ TARGET_MOISTURE_HIGH →
      (moisture_control m s).1.pump = s.pump) := by
  refine ⟨?_, ?_, ?_⟩
  · intro hm hp
    simp [moisture_control, hm, hp]
  · intro hm hp
    simp [moisture_control, hm, hp]
  · intro hlo hhi
    have h1 : ¬ m < TARGET_MOISTURE_LOW := not_lt.2 hlo
    have h2 : ¬ m > TARGET_MOISTURE_HIGH := not_lt.2 hhi
    simp [moisture_control, h1, h2]

/-- Witness for C4 at concrete readings: 35.0 with pump OFF turns only the
pump ON, 70.0 with pump ON turns it OFF, 50.0 leaves the pump alone. -/
theorem moisture_pump_spec_witness :
    moisture_control 35 allOff = ({ allOff with pump := true }, .pumpOn) ∧
    (moisture_control 70 { allOff with pump := true }).1 = { allOff with pump := false } ∧
    (moisture_control 50 allOff).1.pump = allOff.pump :=
  ⟨(moisture_pump_spec 35 allOff).1 (by decide) rfl,
   (moisture_pump_spec 70 { allOff with pump := true }).2.1 (by decide) rfl,
   (moisture_pump_spec 50 allOff).2.2 (by decide) (by decide)⟩

/-- C5: the humidity category is an ordered first-match chain:
humidity < 60.0 with mister OFF turns only the mister ON; otherwise
humidity > 80.0 with mister ON turns only the mister OFF, leaving the fan
untouched; otherwise humidity > 80.0 with fan OFF turns the fan ON
(dehumidify); otherwise neither mister nor fan changes. -/
theorem humidity_first_match_chain (h : ℚ) (s : ActuatorState) :
    (h < TARGET_HUMIDITY_LOW → s.mister = false →
      humidity_control h s = ({ s with mister := true }, .misterOn)) ∧
    (h > TARGET_HUMIDITY_HIGH → s.mister = true →
      humidity_control h s = ({ s with mister := false }, .misterOff)) ∧
    (h > TARGET_HUMIDITY_HIGH → s.mister = false → s.fan = false →
      humidity_control h s = ({ s with fan := true }, .fanOnDehumidify)) ∧
    (¬ (h < TARGET_HUMIDITY_LOW ∧ s.mister = false) →
     ¬ (h > TARGET_HUMIDITY_HIGH ∧ s.mister = true) →
     ¬ (h > TARGET_HUMIDITY_HIGH ∧ s.fan = false) →
      humidity_control h s = (s, .noChange s.mister)) := by
  refine ⟨?_, ?_, ?_, ?_⟩
  · intro hm hmi
    simp [humidity_control, hm, hmi]
  · intro hm hmi
    have hnl : ¬ h < TARGET_HUMIDITY_LOW := by
      simp only [TARGET_HUMIDITY_LOW]
      simp only [TARGET_HUMIDITY_HIGH] at hm
      linarith
    simp [humidity_control, hm, hmi, hnl]
  · intro hm hmi hf
    have hnl : ¬ h < TARGET_HUMIDITY_LOW := by
      simp only [TARGET_HUMIDITY_LOW]
      simp only [TARGET_HUMIDITY_HIGH] at hm
      linarith
    simp [humidity_control, hm, hmi, hf, hnl]
  · intro h1 h2 h3
    simp [humidity_control, h1, h2, h3]

/-- Witness for C5 at concrete readings: 50.0 humidifies, 85.0 with mister
ON stops the mister without touching the fan, 85.0 with mister OFF and fan
OFF dehumidifies, 70.0 changes nothing. -/
theorem humidity_first_match_chain_witness :
    humidity_control 50 allOff = ({ allOff with mister := true }, .misterOn) ∧
    humidity_control 85 { allOff with mister := true }
      = ({ allOff with mister := false }, .misterOff) ∧
    humidity_control 85 allOff = ({ allOff with fan := true }, .fanOnDehumidify) ∧
    humidity_control 70 allOff = (allOff, .noChange allOff.mister) :=
  ⟨(humidity_first_match_chain 50 allOff).1 (by decide) rfl,
   (humidity_first_match_chain 85 { allOff with mister := true }).2.1 (by decide) rfl,
   (humidity_first_match_chain 85 allOff).2.2.1 (by decide) rfl rfl,
   (humidity_first_match_chain 70 allOff).2.2.2 (by decide) (by decide) (by decide)⟩

/-- C3 counterexample: with light 10000 (< 15000), LED already ON and the
shade net ON, the fourth light branch fires — light < 30000 − 1000 with
shade ON retracts the shade — so an actuator does change state, contrary
to the claim that no light branch fires regardless of the shade state. -/
theorem light_low_led_on_shade_retracts :
    light_control 10000
      { pump := false, fan := false, mister := false,
        led_light := true, shade_net := true }
    = ({ pump := false, fan := false, mister := false,
         led_light := true, shade_net := false }, .shadeOff) ∧
    (({ pump := false, fan := false, mister := false,
        led_light := true, shade_net := false } : ActuatorState).shade_net
      ≠ (({ pump := false, fan := false, mister := false,
            led_light := true, shade_net := true } : ActuatorState)).shade_net) := by
  constructor
  · norm_num [light_control, TARGET_LIGHT_LOW, TARGET_LIGHT_HIGH]
  · decide

/-- C3 (amended): in any cycle with light strictly below
`TARGET_LIGHT_LOW` (15000), the LED already ON and the shade net OFF, no
light branch fires: neither LED nor shade changes and the category reports
no-change.  (When the shade net is ON, the shade-retract branch fires
instead — see the counterexample.) -/
theorem light_no_refire_when_shade_off (lx : ℚ) (s : ActuatorState)
    (hlx : lx < TARGET_LIGHT_LOW) (hled : s.led_light = true)
    (hshade : s.shade_net = false) :
    light_control lx s = (s, .noChange true false) := by
  have h2 : ¬ lx > TARGET_LIGHT_LOW + 500 := by
    simp only [TARGET_LIGHT_LOW] at hlx ⊢
    norm_num
    linarith
  have h3 : ¬ lx > TARGET_LIGHT_HIGH := by
    simp only [TARGET_LIGHT_LOW] at hlx
    simp only [TARGET_LIGHT_HIGH]
    linarith
  simp [light_control, hled, hshade, h2, h3]

/-- Witness for the amended C3: light 10000, LED ON, shade OFF — the light
category leaves both actuators as they are and reports no-change. -/
theorem light_no_refire_when_shade_off_witness :
    light_control 10000
      { pump := false, fan := false, mister := false,
        led_light := true, shade_net := false }
    = ({ pump := false, fan := false, mister := false,
         led_light := true, shade_net := false }, .noChange true false) :=
  light_no_refire_when_shade_off 10000
    { pump := false, fan := false, mister := false,
      led_light := true, shade_net := false }
    (by decide) rfl rfl

/-- C8 counterexample: on an unexpected fault, `main_control_loop` does not
propagate the exception — `except Exception` swallows it, the `finally`
cleanup runs and the function returns normally with the error merely
reported, contradicting the claim that the shutdown path runs "before the
fault propagates". -/
theorem fault_swallowed_not_propagated :
    main_control_loop [] none (.unexpectedFault (("boom").toList))
      = (allOff, .errorReported (("boom").toList)) ∧
    LoopOutcome.errorReported (("boom").toList)
      ≠ LoopOutcome.propagated (("boom").toList) :=
  ⟨rfl, by decide⟩

/-- C8 (amended): whenever the control loop terminates — by keyboard
interrupt or by an unexpected runtime fault — the `finally` block drives
all five actuators OFF before `main_control_loop` returns, regardless of
how many cycles or which partial category sequence last executed; in the
unexpected-fault case the fault is caught and suppressed, so the loop
returns normally with the error reported rather than propagated. -/
theorem shutdown_all_off_on_exit (frames : List SensorFrame)
    (partialExit : Option (SensorFrame × ℕ)) (exitReason : ExitReason)
    (msg : List Char) :
    (main_control_loop frames partialExit exitReason).1 = allOff ∧
    (main_control_loop frames partialExit (.unexpectedFault msg)).2
      = .errorReported msg :=
  ⟨rfl, rfl⟩

/-- C1: evaluation of `parse(format(...))` at a logged line whose display
value `45.0%` contains no separator token.  Timestamp, display value and
action name round-trip, but the recovered `Sensor_Type` is
`"oil_Moisture"`, not the logged label `"Soil_Moisture"`: the parser reads
`line[23:]` while the sensor segment starts at offset 22, so the label's
first character is lost and the round-trip of the claim fails.  (The
code's own comment "Data part example: 'Moisture: 68.1%'" documents the
intended segment, so this is a slip in the code.) -/
theorem round_trip_drops_first_label_char :
    parse_log_entry (("CS-1111").toList)
      (log_entry_line (("2025-06-15 12:00:00").toList)
        ((("Soil_Moisture").toList) ++ ((": ").toList) ++ (("45.0%").toList))
        (("Pump ON (Irrigation START)").toList))
    = some { Timestamp := ("2025-06-15 12:00:00").toList,
             Sensor_Type := ("oil_Moisture").toList,
             Sensor_Reading := ("45.0%").toList,
             Actuator_Action := ("Pump ON").toList,
             Is_Critical := ("Yes").toList,
             Cloud_Sync_ID := ("CS-1111").toList } ∧
    ("oil_Moisture").toList ≠ ("Soil_Moisture").toList := by
  decide

/-- C2: `parse_log_entry` on the spec's example line returns timestamp
`2025-01-01 00:00:00`, reading `35.0%`, action `Pump ON`, criticality
`Yes` — but `Sensor_Type` is `"oisture"`, not the claimed `"Moisture"`,
because of the `line[23:]` off-by-one. -/
theorem parse_example_line_eval :
    parse_log_entry (("CS-1234").toList)
      (("[2025-01-01 00:00:00] Moisture: 35.0%. Action: Pump ON (Irrigation START)").toList)
    = some { Timestamp := ("2025-01-01 00:00:00").toList,
             Sensor_Type := ("oisture").toList,
             Sensor_Reading := ("35.0%").toList,
             Actuator_Action := ("Pump ON").toList,
             Is_Critical := ("Yes").toList,
             Cloud_Sync_ID := ("CS-1234").toList } ∧
    ("oisture").toList ≠ ("Moisture").toList := by
  decide

/-- C6: a line in which the literal separator `". Action: "` does not
occur (empty and too-short lines included) parses to no record — the
`IndexError` on `data_parts[1]` is caught by the bare `except`, which
returns `None` instead of raising to the caller — and the batch loop of
`read_local_buffer_and_sync` simply skips such a line and continues with
the rest of the buffer. -/
theorem parse_missing_separator_none (cloud_sync_id line : List Char)
    (ids : ℕ → List Char) (ls : List (List Char)) (k : ℕ)
    (hsep : containsSub SEP_ACTION line = false) :
    parse_log_entry cloud_sync_id line = none ∧
    processLines ids (line :: ls) k = processLines ids ls (k + 1) := by
  have hinf : ¬ SEP_ACTION <:+: line := fun h => by
    rw [← containsSub_iff] at h
    exact absurd hsep (by simp [h])
  have hstrip : ¬ SEP_ACTION <:+: pyStrip line := fun h =>
    hinf (h.trans (pyStrip_contig line))
  refine ⟨parse_log_entry_eq_none cloud_sync_id line hinf, ?_⟩
  simp only [processLines, parse_log_entry_eq_none (ids k) (pyStrip line) hstrip]

/-- Witness for C6: a concrete separator-free line yields no record and is
skipped by the batch loop. -/
theorem parse_missing_separator_none_witness :
    parse_log_entry (("CS-9999").toList) (("This line has no separator").toList) = none ∧
    processLines (fun _ => ("CS-9999").toList)
        [("This line has no separator").toList] 0
      = processLines (fun _ => ("CS-9999").toList) [] 1 :=
  parse_missing_separator_none (("CS-9999").toList)
    (("This line has no separator").toList) (fun _ => ("CS-9999").toList) [] 0
    (by decide)

/-- C7: when the log file exists and at least one line parses,
`read_local_buffer_and_sync` writes `CloudSync_Ready.csv` as the header
row (the field names of the first record — every record built by
`parse_log_entry` has the same six keys in insertion order) followed by
exactly one data row per parsed record, in parse order (`rs.map
recordRow`), and reports a sync of `rs.length` records. -/
theorem sync_csv_header_and_rows (ids : ℕ → List Char) (fs : FileSystem)
    (fileLines : List (List Char)) (rs : List LogRecord)
    (hlog : fs.logFile = some fileLines)
    (hrs : processLines ids fileLines 0 = rs)
    (hne : rs ≠ []) :
    read_local_buffer_and_sync ids fs
      = ({ fs with csvFile := some (fieldnames :: rs.map recordRow) },
         .synced rs.length) := by
  cases rs with
  | nil => exact absurd rfl hne
  | cons r rest =>
    simp [read_local_buffer_and_sync, hlog, hrs]

/-- Witness for C7: a two-line buffer (one non-critical no-change line,
one critical mister line) is exported as the header row followed by the
two data rows in file order. -/
theorem sync_csv_header_and_rows_witness :
    read_local_buffer_and_sync (fun _ => ("CS-1234").toList)
      { logFile := some
          [("[2025-03-04 05:06:07] Soil_Moisture: 55.0%. Action: Soil_Moisture: No Change (OFF)").toList,
           ("[2025-03-04 05:06:12] Humidity: 61.0%. Action: Mister ON (Humidify START)").toList],
        csvFile := none }
      = ({ logFile := some
             [("[2025-03-04 05:06:07] Soil_Moisture: 55.0%. Action: Soil_Moisture: No Change (OFF)").toList,
              ("[2025-03-04 05:06:12] Humidity: 61.0%. Action: Mister ON (Humidify START)").toList],
           csvFile := some (fieldnames ::
             ([{ Timestamp := ("2025-03-04 05:06:07").toList,
                 Sensor_Type := ("oil_Moisture").toList,
                 Sensor_Reading := ("55.0%").toList,
                 Actuator_Action := ("Soil_Moisture: No Change").toList,
                 Is_Critical := ("No").toList,
                 Cloud_Sync_ID := ("CS-1234").toList },
               { Timestamp := ("2025-03-04 05:06:12").toList,
                 Sensor_Type := ("umidity").toList,
                 Sensor_Reading := ("61.0%").toList,
                 Actuator_Action := ("Mister ON").toList,
                 Is_Critical := ("Yes").toList,
                 Cloud_Sync_ID := ("CS-1234").toList }] : List LogRecord).map recordRow) },
         .synced 2) :=
  sync_csv_header_and_rows (fun _ => ("CS-1234").toList) _ _
    [{ Timestamp := ("2025-03-04 05:06:07").toList,
       Sensor_Type := ("oil_Moisture").toList,
       Sensor_Reading := ("55.0%").toList,
       Actuator_Action := ("Soil_Moisture: No Change").toList,
       Is_Critical := ("No").toList,
       Cloud_Sync_ID := ("CS-1234").toList },
     { Timestamp := ("2025-03-04 05:06:12").toList,
       Sensor_Type := ("umidity").toList,
       Sensor_Reading := ("61.0%").toList,
       Actuator_Action := ("Mister ON").toList,
       Is_Critical := ("Yes").toList,
       Cloud_Sync_ID := ("CS-1234").toList }]
    rfl (by decide) (by decide)

/-- C9: `read_local_buffer_and_sync` never deletes, truncates or modifies
the source log `ActuatorLog_Local.txt`: on every path (missing log, no
parsed data, completed export) the log file is exactly what it was before
the run — `os.remove(LOCAL_LOG_FILE)` is commented out. -/
theorem sync_preserves_log_file (ids : ℕ → List Char) (fs : FileSystem) :
    (read_local_buffer_and_sync ids fs).1.logFile = fs.logFile := by
  cases hl : fs.logFile with
  | none => simp [read_local_buffer_and_sync, hl]
  | some fileLines =>
    simp only [read_local_buffer_and_sync, hl]
    split
    · exact hl
    · rfl

/-- C10: if the log file exists but no line of it parses,
`read_local_buffer_and_sync` returns early with the no-data message:
`CloudSync_Ready.csv` is neither created nor overwritten, so a
pre-existing export file is left exactly as it was. -/
theorem sync_no_data_no_csv (ids : ℕ → List Char) (fs : FileSystem)
    (fileLines : List (List Char))
    (hlog : fs.logFile = some fileLines)
    (hnone : ∀ l ∈ fileLines, ∀ id, parse_log_entry id (pyStrip l) = none) :
    read_local_buffer_and_sync ids fs = (fs, .noData) ∧
    (read_local_buffer_and_sync ids fs).1.csvFile = fs.csvFile := by
  have hp := processLines_eq_nil ids fileLines 0 hnone
  refine ⟨?_, ?_⟩ <;> simp [read_local_buffer_and_sync, hlog, hp]

/-- Witness for C10: a log holding one unparseable line next to a stale
export file — the run reports no data and the stale export survives
untouched. -/
theorem sync_no_data_no_csv_witness :
    read_local_buffer_and_sync (fun _ => ("CS-1").toList)
        { logFile := some [("not a log line").toList],
          csvFile := some [[("stale").toList]] }
      = ({ logFile := some [("not a log line").toList],
           csvFile := some [[("stale").toList]] }, .noData) ∧
    (read_local_buffer_and_sync (fun _ => ("CS-1").toList)
        { logFile := some [("not a log line").toList],
          csvFile := some [[("stale").toList]] }).1.csvFile
      = some [[("stale").toList]] :=
  sync_no_data_no_csv (fun _ => ("CS-1").toList)
    { logFile := some [("not a log line").toList],
      csvFile := some [[("stale").toList]] }
    [("not a log line").toList] rfl
    (by
      intro l hl id
      simp only [List.mem_singleton] at hl
      subst hl
      rfl)
